import Mathlib

/-!
Shallow embedding of `scripts/log_release_downloads.py`, a single-file script
that polls the GitHub releases API for per-asset cumulative download counts,
appends one snapshot row per asset to a snapshot CSV, appends one event row
per positive delta to an approximate-events CSV, and persists the poll
timestamp in a marker file.

Files are modelled at the row level: a CSV file is a `List (List String)`
(one inner list per CSV record), the marker file is a `String`, and a file
that does not exist is `none`.  Python `datetime` values flowing through the
script are all JST-aware; they are modelled by their clock fields, with the
fixed `+09:00` offset appearing in the serialized form.
-/

set_option autoImplicit false

namespace ReleaseLogger

/-- Model of the JST-aware `datetime` values used by the script: clock
fields plus microseconds.  All datetimes the script constructs or parses
carry the fixed JST offset, so the offset is kept out of the structure and
appears only in the serialized text. -/
structure PyDateTime where
  year : Nat
  month : Nat
  day : Nat
  hour : Nat
  minute : Nat
  second : Nat
  micro : Nat
  deriving DecidableEq, Repr

/-- `dt.replace(microsecond=0)`. -/
def dropMicro (d : PyDateTime) : PyDateTime := { d with micro := 0 }

/-- The ASCII digit character for `n < 10` (as used by `%02d`/`%04d`
zero-padded formatting). -/
def digitChar10 (n : Nat) : Char := Char.ofNat (48 + n)

/-- Two-digit zero-padded decimal rendering, as in `f"{n:02d}"`. -/
def pad2 (n : Nat) : List Char := [digitChar10 (n / 10), digitChar10 (n % 10)]

/-- Four-digit zero-padded decimal rendering, as in `f"{n:04d}"`. -/
def pad4 (n : Nat) : List Char :=
  [digitChar10 (n / 1000), digitChar10 (n / 100 % 10),
   digitChar10 (n / 10 % 10), digitChar10 (n % 10)]

/-- Six-digit zero-padded decimal rendering for microseconds. -/
def pad6 (n : Nat) : List Char :=
  [digitChar10 (n / 100000), digitChar10 (n / 10000 % 10),
   digitChar10 (n / 1000 % 10), digitChar10 (n / 100 % 10),
   digitChar10 (n / 10 % 10), digitChar10 (n % 10)]

/-- The `+09:00` offset suffix that `datetime.isoformat()` appends for a
JST-aware datetime. -/
def tzSuffix : List Char := ['+', '0', '9', ':', '0', '0']

/-- `datetime.isoformat()` for the JST-aware datetimes of this script:
`YYYY-MM-DDTHH:MM:SS[.ffffff]+09:00`, the fractional part present only when
microseconds are nonzero. -/
def isoformat (d : PyDateTime) : List Char :=
  pad4 d.year ++ '-' :: pad2 d.month ++ '-' :: pad2 d.day ++ 'T' :: pad2 d.hour ++
    ':' :: pad2 d.minute ++ ':' :: pad2 d.second ++
    (if d.micro = 0 then [] else '.' :: pad6 d.micro) ++ tzSuffix

/-- A decimal digit character, as accepted by `int()` / `fromisoformat`. -/
def parseDigit (c : Char) : Option Nat :=
  if '0' ≤ c ∧ c ≤ '9' then some (c.toNat - 48) else none

/-- Two decimal digits. -/
def parse2 (a b : Char) : Option Nat :=
  match parseDigit a, parseDigit b with
  | some x, some y => some (x * 10 + y)
  | _, _ => none

/-- Four decimal digits. -/
def parse4 (a b c d : Char) : Option Nat :=
  match parseDigit a, parseDigit b, parseDigit c, parseDigit d with
  | some x, some y, some z, some w => some (((x * 10 + y) * 10 + z) * 10 + w)
  | _, _, _, _ => none

/-- Model of `datetime.fromisoformat` restricted to the exact grammar this
script ever writes to its marker file: `YYYY-MM-DDTHH:MM:SS+09:00`.  Other
strings accepted by Python are out of scope; the development relies only on
`fromisoformat` inverting `isoformat` on the written format and on it
rejecting clearly non-ISO text. -/
def parseIso (l : List Char) : Option PyDateTime :=
  match l with
  | y1 :: y2 :: y3 :: y4 :: c1 :: mo1 :: mo2 :: c2 :: d1 :: d2 :: c3 ::
      h1 :: h2 :: c4 :: mi1 :: mi2 :: c5 :: s1 :: s2 :: rest =>
    if c1 = '-' ∧ c2 = '-' ∧ c3 = 'T' ∧ c4 = ':' ∧ c5 = ':' ∧ rest = tzSuffix then
      match parse4 y1 y2 y3 y4, parse2 mo1 mo2, parse2 d1 d2,
            parse2 h1 h2, parse2 mi1 mi2, parse2 s1 s2 with
      | some y, some mo, some dd, some hh, some mi, some ss =>
        some ⟨y, mo, dd, hh, mi, ss, 0⟩
      | _, _, _, _, _, _ => none
    else none
  | _ => none

/-- ASCII whitespace stripped by `str.strip()`. -/
def isPySpace (c : Char) : Bool :=
  c = ' ' || c = '\t' || c = '\n' || c = '\r' || c = '\x0b' || c = '\x0c'

/-- `str.strip()`: drop leading and trailing whitespace. -/
def pyStrip (l : List Char) : List Char :=
  ((l.dropWhile isPySpace).reverse.dropWhile isPySpace).reverse

/-! ## Python `int()` on strings -/

/-- Digit run with single underscores allowed between digits, the tail of a
Python decimal integer literal accepted by `int()`. -/
def pyDigits : List Char → Nat → Option Nat
  | [], acc => some acc
  | c :: rest, acc =>
    if c = '_' then
      match rest with
      | [] => none
      | c2 :: rest2 =>
        match parseDigit c2 with
        | some d => pyDigits rest2 (acc * 10 + d)
        | none => none
    else
      match parseDigit c with
      | some d => pyDigits rest (acc * 10 + d)
      | none => none

/-- The digits of a Python `int()` argument after sign removal: must start
with a digit, underscores only between digits. -/
def pyIntNat (l : List Char) : Option Nat :=
  match l with
  | [] => none
  | c :: _ =>
    match parseDigit c with
    | none => none
    | some _ => pyDigits l 0

/-- Model of Python `int(s)` for `str` arguments: strip whitespace, optional
sign, decimal digits with underscore separators; `none` models the
`ValueError` raised on anything else. -/
def pyInt (s : String) : Option Int :=
  match pyStrip s.toList with
  | '+' :: rest => (pyIntNat rest).map Int.ofNat
  | '-' :: rest => (pyIntNat rest).map (fun n => -(n : Int))
  | rest => (pyIntNat rest).map Int.ofNat

/-! ## CSV snapshot log: header reading and previous-counts replay -/

/-- Expected snapshot CSV header (`snapshot_header` in `main`). -/
def snapshotHeader : List String :=
  ["timestamp_jst", "release_tag", "asset_name", "download_count_total", "delta_since_prev"]

/-- Events CSV header (`events_header` in `main`). -/
def eventsHeader : List String :=
  ["window_start_jst", "window_end_jst", "asset_name", "delta_downloads"]

/-- `_read_csv_header`: `none` when the file is missing or has no first row,
otherwise the first CSV record. -/
def readCsvHeader : Option (List (List String)) → Option (List String)
  | none => none
  | some [] => none
  | some (h :: _) => some h

/-- Last index at which `k` occurs in `l`; models which column a duplicate
field name ends up bound to in a `csv.DictReader` row dict. -/
def lastIdxOf (l : List String) (k : String) : Option Nat :=
  match l with
  | [] => none
  | a :: rest =>
    match lastIdxOf rest k with
    | some i => some (i + 1)
    | none => if a = k then some 0 else none

/-- `row.get(key, "")` on a `csv.DictReader` row: the default `""` when the
key is not a field name, the cell when present, `none` (Python `None`, the
`restval`) when the row is shorter than the header. -/
def fieldGet (hdr row : List String) (key : String) : Option String :=
  match lastIdxOf hdr key with
  | none => some ""
  | some i => row[i]?

/-- The contribution of one data row to the previous-counts dict in
`_load_last_counts`: `some (name, total)` when the row has a truthy
`asset_name`, a truthy `download_count_total` and the latter parses as an
`int`; `none` when the row is skipped (blank rows are skipped by
`DictReader`, falsy fields by the `if`, parse failures by the
`except ValueError`). -/
def goodEntry (hdr row : List String) : Option (String × Int) :=
  if row = [] then none
  else
    match fieldGet hdr row "asset_name", fieldGet hdr row "download_count_total" with
    | some name, some total =>
      if name = "" ∨ total = "" then none
      else
        match pyInt total with
        | some v => some (name, v)
        | none => none
    | _, _ => none

/-- `_load_last_counts`: replay the snapshot CSV, building the
`asset_name -> last download_count_total` dict.  The dict is modelled as the
ordered list of assignments; reads take the last matching one. -/
def loadLastCounts (file : Option (List (List String))) : List (String × Int) :=
  match file with
  | none => []
  | some [] => []
  | some (hdr :: rows) =>
    rows.foldl (fun m row =>
      match goodEntry hdr row with
      | some (k, v) => m ++ [(k, v)]
      | none => m) []

/-- Dict read: the value of the last assignment to `k`, as a Python dict
returns after repeated overwrites. -/
def lookupLast (m : List (String × Int)) (k : String) : Option Int :=
  match m with
  | [] => none
  | (k2, v) :: rest =>
    match lookupLast rest k with
    | some r => some r
    | none => if k2 = k then some v else none

/-! ## Marker file -/

/-- `_read_last_poll_jst`: `none` when the file is missing, stripped-empty,
or does not parse as an ISO timestamp. -/
def readLastPollJst (marker : Option String) : Option PyDateTime :=
  match marker with
  | none => none
  | some s =>
    let t := pyStrip s.toList
    if t = [] then none else parseIso t

/-! ## File-system state and the run model -/

/-- The three metrics files the script touches, plus the contents of any
backup files created by renaming a stale snapshot log aside.  `none` models
a file that does not exist. -/
structure FileState where
  snapshot : Option (List (List String))
  events : Option (List (List String))
  marker : Option String
  backups : List (List (List String))
  deriving DecidableEq, Repr

/-- One fetched release asset: `a.get("name", "")` and
`int(a.get("download_count", 0))`. -/
structure Asset where
  name : String
  download_count : Int
  deriving DecidableEq, Repr

/-- The fetched latest release: `tag_name` (possibly missing or empty in the
JSON, before the `or "latest"` fallback) and its asset list. -/
structure Release where
  tag_name : Option String
  assets : List Asset
  deriving DecidableEq, Repr

/-- `latest.get("tag_name") or "latest"`. -/
def effectiveTag (r : Release) : String :=
  match r.tag_name with
  | none => "latest"
  | some t => if t = "" then "latest" else t

/-- The `SnapshotRow` dataclass. -/
structure SnapshotRow where
  timestamp_jst : String
  release_tag : String
  asset_name : String
  download_count_total : Int
  delta_since_prev : Int
  deriving DecidableEq, Repr

/-- The CSV record written for a snapshot row. -/
def snapshotRowToCsv (r : SnapshotRow) : List String :=
  [r.timestamp_jst, r.release_tag, r.asset_name,
   toString r.download_count_total, toString r.delta_since_prev]

/-- The CSV record written for an approximate-download event:
`[prev_poll.isoformat(), now.isoformat(), asset_name, delta]`. -/
def eventRowToCsv (prevPoll nowJst : PyDateTime) (r : SnapshotRow) : List String :=
  [String.mk (isoformat prevPoll), String.mk (isoformat nowJst),
   r.asset_name, toString r.delta_since_prev]

/-- `_backup_if_header_mismatch`: when the snapshot file has a first row and
it differs from the expected header, rename the file aside (its rows are
preserved among the backups) so a fresh file will be created. -/
def backupIfHeaderMismatch (fs : FileState) : FileState :=
  match readCsvHeader fs.snapshot with
  | none => fs
  | some hdr =>
    if hdr = snapshotHeader then fs
    else { fs with snapshot := none, backups := fs.backups ++ [fs.snapshot.getD []] }

/-- `_write_last_poll_jst`: overwrite the marker with
`dt.replace(microsecond=0).isoformat()`. -/
def writeLastPollJst (fs : FileState) (d : PyDateTime) : FileState :=
  { fs with marker := some (String.mk (isoformat (dropMicro d))) }

/-- The previous-counts dict a run computes:
`_load_last_counts(snapshot_csv_path)` after the header-mismatch backup. -/
def runLastCounts (fs : FileState) : List (String × Int) :=
  loadLastCounts (backupIfHeaderMismatch fs).snapshot

/-- `prev_poll_jst`: the parsed marker, defaulting to `now_jst` when absent
or unparseable (the first-poll convention). -/
def runPrevPoll (fs : FileState) (nowRaw : PyDateTime) : PyDateTime :=
  (readLastPollJst fs.marker).getD (dropMicro nowRaw)

/-- `is_first_poll = (prev_poll_jst == now_jst and not last_poll_path.exists())`. -/
def runFirstPoll (fs : FileState) (nowRaw : PyDateTime) : Bool :=
  decide (runPrevPoll fs nowRaw = dropMicro nowRaw) && fs.marker.isNone

/-- The snapshot rows built in `main`'s asset loop, one per fetched asset in
order: timestamp `now_jst.isoformat()`, the effective tag, the asset's name
and count, and `delta = total - last_counts.get(name, total)`. -/
def runRows (fs : FileState) (rel : Release) (nowRaw : PyDateTime) : List SnapshotRow :=
  rel.assets.map (fun a =>
    { timestamp_jst := String.mk (isoformat (dropMicro nowRaw)),
      release_tag := effectiveTag rel,
      asset_name := a.name,
      download_count_total := a.download_count,
      delta_since_prev :=
        a.download_count - (lookupLast (runLastCounts fs) a.name).getD a.download_count })

/-- The event CSV records appended in a run: nothing on the first poll,
otherwise one record per positive-delta snapshot row, with window
`[prev_poll_jst, now_jst]`. -/
def runEventCsv (fs : FileState) (rel : Release) (nowRaw : PyDateTime) : List (List String) :=
  if runFirstPoll fs nowRaw then []
  else
    ((runRows fs rel nowRaw).filter (fun r => decide (0 < r.delta_since_prev))).map
      (eventRowToCsv (runPrevPoll fs nowRaw) (dropMicro nowRaw))

/-- The events file content the run starts appending to: created with just
the header when absent, otherwise the existing rows. -/
def evInit (fs : FileState) : List (List String) :=
  match fs.events with
  | none => [eventsHeader]
  | some e => e

/-- One invocation of `main`, given the fetched release (`none` models a
raised transport/API error, which aborts the run before any file write) and
the wall-clock time `datetime.now(...)` observed at line 150.  The returned
state reflects, in program order: the header-mismatch backup, the snapshot
append (with header exactly when the file did not exist), the events-file
creation and conditional event append, and the marker overwrite. -/
def runMain (fs : FileState) (fetch : Option Release) (nowRaw : PyDateTime) : FileState :=
  let fs1 := backupIfHeaderMismatch fs
  match fetch with
  | none => fs1
  | some rel =>
    { snapshot :=
        some ((fs1.snapshot.getD []) ++
          (if fs1.snapshot.isNone then [snapshotHeader] else []) ++
          (runRows fs rel nowRaw).map snapshotRowToCsv),
      events := some (evInit fs ++ runEventCsv fs rel nowRaw),
      marker := (writeLastPollJst fs1 (dropMicro nowRaw)).marker,
      backups := fs1.backups }

/-! ## Serialization lemmas -/

@[simp] theorem dropMicro_dropMicro (d : PyDateTime) :
    dropMicro (dropMicro d) = dropMicro d := rfl

@[simp] theorem micro_dropMicro (d : PyDateTime) : (dropMicro d).micro = 0 := rfl

theorem parseDigit_digitChar10 (k : Nat) (hk : k < 10) :
    parseDigit (digitChar10 k) = some k := by
  interval_cases k <;> decide

theorem isPySpace_digitChar10 (k : Nat) (hk : k < 10) :
    isPySpace (digitChar10 k) = false := by
  interval_cases k <;> decide

theorem parse2_pad (a b : Nat) (ha : a < 10) (hb : b < 10) :
    parse2 (digitChar10 a) (digitChar10 b) = some (a * 10 + b) := by
  simp [parse2, parseDigit_digitChar10 a ha, parseDigit_digitChar10 b hb]

theorem parse4_pad (a b c d : Nat) (ha : a < 10) (hb : b < 10) (hc : c < 10) (hd : d < 10) :
    parse4 (digitChar10 a) (digitChar10 b) (digitChar10 c) (digitChar10 d) =
      some (((a * 10 + b) * 10 + c) * 10 + d) := by
  simp [parse4, parseDigit_digitChar10 a ha, parseDigit_digitChar10 b hb,
    parseDigit_digitChar10 c hc, parseDigit_digitChar10 d hd]

theorem pyStrip_of_ends (a z : Char) (mid : List Char)
    (ha : isPySpace a = false) (hz : isPySpace z = false) :
    pyStrip (a :: (mid ++ [z])) = a :: (mid ++ [z]):= by
  unfold pyStrip
  rw [List.dropWhile_cons]
  simp only [ha, Bool.false_eq_true, if_false]
  rw [show (a :: (mid ++ [z])).reverse = z :: (mid.reverse ++ [a]) by simp]
  rw [List.dropWhile_cons]
  simp [hz]

theorem isoformat_shape (d : PyDateTime) (h0 : d.micro = 0) :
    isoformat d =
      digitChar10 (d.year / 1000) ::
        ([digitChar10 (d.year / 100 % 10), digitChar10 (d.year / 10 % 10),
          digitChar10 (d.year % 10), '-', digitChar10 (d.month / 10),
          digitChar10 (d.month % 10), '-', digitChar10 (d.day / 10),
          digitChar10 (d.day % 10), 'T', digitChar10 (d.hour / 10),
          digitChar10 (d.hour % 10), ':', digitChar10 (d.minute / 10),
          digitChar10 (d.minute % 10), ':', digitChar10 (d.second / 10),
          digitChar10 (d.second % 10), '+', '0', '9', ':', '0'] ++ ['0']) := by
  simp [isoformat, pad4, pad2, h0, tzSuffix]

theorem pyStrip_isoformat (d : PyDateTime) (h0 : d.micro = 0) (hy : d.year < 10000) :
    pyStrip (isoformat d) = isoformat d := by
  rw [isoformat_shape d h0]
  exact pyStrip_of_ends _ _ _
    (isPySpace_digitChar10 _ (by omega)) (by decide)

theorem parseIso_isoformat (d : PyDateTime) (h0 : d.micro = 0)
    (hy : d.year < 10000) (hmo : d.month < 100) (hd : d.day < 100)
    (hh : d.hour < 100) (hmi : d.minute < 100) (hs : d.second < 100) :
    parseIso (isoformat d) = some d := by
  obtain ⟨y, mo, dd, hh2, mi, ss, mic⟩ := d
  simp only at h0 hy hmo hd hh hmi hs
  subst h0
  rw [isoformat_shape _ rfl]
  simp only [List.cons_append, List.nil_append]
  rw [parseIso]
  rw [if_pos (show ('-' : Char) = '-' ∧ ('-' : Char) = '-' ∧ ('T' : Char) = 'T' ∧
    (':' : Char) = ':' ∧ (':' : Char) = ':' ∧
    ['+', '0', '9', ':', '0', '0'] = tzSuffix by decide)]
  rw [parse4_pad _ _ _ _ (by omega) (by omega) (by omega) (by omega),
    parse2_pad _ _ (by omega) (by omega), parse2_pad _ _ (by omega) (by omega),
    parse2_pad _ _ (by omega) (by omega), parse2_pad _ _ (by omega) (by omega),
    parse2_pad _ _ (by omega) (by omega)]
  simp only [Option.some.injEq, PyDateTime.mk.injEq]
  refine ⟨by omega, by omega, by omega, by omega, by omega, by omega, trivial⟩

@[simp] theorem backup_marker (fs : FileState) :
    (backupIfHeaderMismatch fs).marker = fs.marker := by
  unfold backupIfHeaderMismatch
  cases h : readCsvHeader fs.snapshot with
  | none => rfl
  | some hdr => by_cases hh : hdr = snapshotHeader <;> simp [hh]

@[simp] theorem backup_events (fs : FileState) :
    (backupIfHeaderMismatch fs).events = fs.events := by
  unfold backupIfHeaderMismatch
  cases h : readCsvHeader fs.snapshot with
  | none => rfl
  | some hdr => by_cases hh : hdr = snapshotHeader <;> simp [hh]

/-! ## Helper lemmas about one run -/

theorem runMain_events (fs : FileState) (rel : Release) (nowRaw : PyDateTime) :
    (runMain fs (some rel) nowRaw).events = some (evInit fs ++ runEventCsv fs rel nowRaw) := rfl

theorem runMain_snapshot (fs : FileState) (rel : Release) (nowRaw : PyDateTime) :
    (runMain fs (some rel) nowRaw).snapshot =
      some (((backupIfHeaderMismatch fs).snapshot.getD []) ++
        (if (backupIfHeaderMismatch fs).snapshot.isNone then [snapshotHeader] else []) ++
        (runRows fs rel nowRaw).map snapshotRowToCsv) := rfl

theorem runMain_backups (fs : FileState) (rel : Release) (nowRaw : PyDateTime) :
    (runMain fs (some rel) nowRaw).backups = (backupIfHeaderMismatch fs).backups := rfl

theorem runMain_marker (fs : FileState) (rel : Release) (nowRaw : PyDateTime) :
    (runMain fs (some rel) nowRaw).marker = some (String.mk (isoformat (dropMicro nowRaw))) := by
  simp [runMain, writeLastPollJst]

theorem runEventCsv_of_marker_none (fs : FileState) (rel : Release) (nowRaw : PyDateTime)
    (h : fs.marker = none) : runEventCsv fs rel nowRaw = [] := by
  simp [runEventCsv, runFirstPoll, runPrevPoll, readLastPollJst, h]

theorem runEventCsv_of_marker_some (fs : FileState) (rel : Release) (nowRaw : PyDateTime)
    (s : String) (h : fs.marker = some s) :
    runEventCsv fs rel nowRaw =
      ((runRows fs rel nowRaw).filter (fun r => decide (0 < r.delta_since_prev))).map
        (eventRowToCsv (runPrevPoll fs nowRaw) (dropMicro nowRaw)) := by
  simp [runEventCsv, runFirstPoll, h]

/-! ## Previous-counts loader lemmas -/

theorem loadLastCounts_foldl (hdr : List String) (rows : List (List String))
    (acc : List (String × Int)) :
    rows.foldl (fun m row =>
      match goodEntry hdr row with
      | some (k, v) => m ++ [(k, v)]
      | none => m) acc = acc ++ rows.filterMap (goodEntry hdr) := by
  induction rows generalizing acc with
  | nil => simp
  | cons r rest ih =>
    simp only [List.foldl_cons, List.filterMap_cons]
    cases h : goodEntry hdr r with
    | none => simp only [h]; rw [ih]
    | some kv =>
      obtain ⟨k, v⟩ := kv
      simp only [h]
      rw [ih, List.append_assoc]
      rfl

theorem loadLastCounts_some (hdr : List String) (rows : List (List String)) :
    loadLastCounts (some (hdr :: rows)) = rows.filterMap (goodEntry hdr) := by
  simp [loadLastCounts, loadLastCounts_foldl]

theorem lookupLast_eq_find_reverse (m : List (String × Int)) (k : String) :
    lookupLast m k = (m.reverse.find? (fun p => decide (p.1 = k))).map Prod.snd := by
  induction m with
  | nil => rfl
  | cons p rest ih =>
    obtain ⟨k2, v⟩ := p
    rw [lookupLast, List.reverse_cons, List.find?_append, ih]
    cases h : (rest.reverse.find? fun p => decide (p.1 = k)) with
    | some q => simp [h]
    | none =>
      by_cases hk : k2 = k <;> simp [h, List.find?, hk]

/-- Claim C6: rebuilding the previous-counts mapping from the snapshot log:
a missing file yields an empty mapping; a file with a header is replayed by
keeping, for each name, the count of the last parseable data row for that
name in file order (last-write-wins); a malformed row (blank, falsy name or
count, or non-integer count) is skipped without affecting the rest. -/
theorem load_last_counts_spec :
    loadLastCounts none = [] ∧
    (∀ hdr rows, loadLastCounts (some (hdr :: rows)) = rows.filterMap (goodEntry hdr)) ∧
    (∀ hdr rows name,
      lookupLast (loadLastCounts (some (hdr :: rows))) name =
        ((rows.filterMap (goodEntry hdr)).reverse.find?
            (fun p => decide (p.1 = name))).map Prod.snd) ∧
    (∀ hdr pre row post, goodEntry hdr row = none →
      loadLastCounts (some (hdr :: (pre ++ row :: post))) =
        loadLastCounts (some (hdr :: (pre ++ post)))) := by
  refine ⟨rfl, loadLastCounts_some, ?_, ?_⟩
  · intro hdr rows name
    rw [loadLastCounts_some, lookupLast_eq_find_reverse]
  · intro hdr pre row post h
    rw [loadLastCounts_some, loadLastCounts_some, List.filterMap_append,
      List.filterMap_append, List.filterMap_cons, h]

/-- Witness for C6 at the spec's own example: two rows for `x.zip` with
counts 10 then 15 replay to 15, and a row with a non-integer count is
skipped. -/
theorem load_last_counts_spec_witness :
    lookupLast (loadLastCounts (some (snapshotHeader ::
        [["t1", "v1", "x.zip", "10", "0"], ["t2", "v1", "x.zip", "15", "5"]]))) "x.zip" =
      (([["t1", "v1", "x.zip", "10", "0"], ["t2", "v1", "x.zip", "15", "5"]].filterMap
          (goodEntry snapshotHeader)).reverse.find?
            (fun p => decide (p.1 = "x.zip"))).map Prod.snd ∧
    loadLastCounts (some (snapshotHeader ::
        ([] ++ ["t3", "v1", "x.zip", "oops", "0"] :: []))) =
      loadLastCounts (some (snapshotHeader :: ([] ++ []))) :=
  ⟨load_last_counts_spec.2.2.1 snapshotHeader _ "x.zip",
   load_last_counts_spec.2.2.2 snapshotHeader [] _ [] (by decide)⟩

/-- Claim C1: for an asset with previously recorded count `P` (by
last-write-wins replay) and newly fetched count `N`, in a run whose marker
parses to a previous poll time, the snapshot row appended for that asset
carries `delta_since_prev = N - P` exactly (negative values included), the
appended event records are the rendering, with window `[prevT, now]`, of the
positive-delta rows, and that asset's row is among them iff `N - P > 0`. -/
theorem delta_correctness (fs : FileState) (rel : Release) (nowRaw : PyDateTime)
    (i : Nat) (a : Asset) (hi : rel.assets[i]? = some a)
    (P : Int) (hP : lookupLast (runLastCounts fs) a.name = some P)
    (prevT : PyDateTime) (hM : readLastPollJst fs.marker = some prevT) :
    (runRows fs rel nowRaw)[i]? = some
      { timestamp_jst := String.mk (isoformat (dropMicro nowRaw)),
        release_tag := effectiveTag rel,
        asset_name := a.name,
        download_count_total := a.download_count,
        delta_since_prev := a.download_count - P } ∧
    (runMain fs (some rel) nowRaw).events =
      some (evInit fs ++
        ((runRows fs rel nowRaw).filter (fun r => decide (0 < r.delta_since_prev))).map
          (eventRowToCsv prevT (dropMicro nowRaw))) ∧
    (∀ r, (runRows fs rel nowRaw)[i]? = some r →
      (r ∈ (runRows fs rel nowRaw).filter (fun r2 => decide (0 < r2.delta_since_prev)) ↔
        0 < a.download_count - P)) := by
  obtain ⟨s, hs⟩ : ∃ s, fs.marker = some s := by
    cases h : fs.marker with
    | none => rw [h] at hM; exact absurd hM (by simp [readLastPollJst])
    | some s => exact ⟨s, rfl⟩
  have hprev : runPrevPoll fs nowRaw = prevT := by
    simp [runPrevPoll, hM]
  have hrow : (runRows fs rel nowRaw)[i]? = some
      { timestamp_jst := String.mk (isoformat (dropMicro nowRaw)),
        release_tag := effectiveTag rel,
        asset_name := a.name,
        download_count_total := a.download_count,
        delta_since_prev := a.download_count - P } := by
    simp [runRows, List.getElem?_map, hi, hP]
  refine ⟨hrow, ?_, ?_⟩
  · rw [runMain_events, runEventCsv_of_marker_some fs rel nowRaw s hs, hprev]
  · intro r hr
    rw [hrow] at hr
    obtain rfl : _ = r := Option.some.inj hr
    constructor
    · intro hmem
      have := List.of_mem_filter hmem
      simpa using this
    · intro hpos
      exact List.mem_filter_of_mem (List.getElem?_mem hrow) (by simpa using hpos)

/-- Witness for C1: previous count 10, new count 15, parseable marker; the
appended row has delta 5 and is among the positive-delta rows. -/
theorem delta_correctness_witness :
    (runRows
        { snapshot := some [snapshotHeader,
            ["2024-05-01T11:00:00+09:00", "v1", "x.zip", "10", "0"]],
          events := some [eventsHeader],
          marker := some "2024-05-01T11:00:00+09:00",
          backups := [] }
        { tag_name := some "v1.2", assets := [{ name := "x.zip", download_count := 15 }] }
        ⟨2024, 5, 1, 12, 0, 0, 0⟩)[0]? = some
      { timestamp_jst := "2024-05-01T12:00:00+09:00",
        release_tag := "v1.2",
        asset_name := "x.zip",
        download_count_total := 15,
        delta_since_prev := 15 - 10 } :=
  (delta_correctness _ _ _ 0 ⟨"x.zip", 15⟩ (by decide) 10 (by decide)
    ⟨2024, 5, 1, 11, 0, 0, 0⟩ (by decide)).1

/-- Claim C2 counterexample: the header-mismatch backup runs before the
fetch, so when the existing snapshot log has a stale header and the fetch
then fails, the snapshot log is no longer byte-identical to its pre-run
state (it has been renamed aside), refuting the claim as stated. -/
theorem fetch_failure_modifies_on_mismatch :
    (runMain
        { snapshot := some [["a", "b", "c"]], events := some [eventsHeader],
          marker := some "2024-05-01T11:00:00+09:00", backups := [] }
        none ⟨2024, 5, 1, 12, 0, 0, 0⟩).snapshot ≠
      some [["a", "b", "c"]] := by decide

/-- Claim C2 amended: on fetch failure the run aborts with the event log and
marker untouched, and the snapshot log is also byte-identical to its pre-run
state provided its header did not mismatch (file missing, empty, or carrying
the expected header); a mismatched header has already been renamed aside
before the fetch. -/
theorem fetch_failure_preserves_files (fs : FileState) (nowRaw : PyDateTime) :
    (runMain fs none nowRaw).events = fs.events ∧
    (runMain fs none nowRaw).marker = fs.marker ∧
    ((readCsvHeader fs.snapshot = none ∨ readCsvHeader fs.snapshot = some snapshotHeader) →
      runMain fs none nowRaw = fs) := by
  refine ⟨backup_events fs, backup_marker fs, ?_⟩
  intro h
  show backupIfHeaderMismatch fs = fs
  unfold backupIfHeaderMismatch
  rcases h with h | h
  · rw [h]
  · rw [h]; simp

/-- Witness for C2 amended at a state whose snapshot log has the expected
header: a failed fetch leaves the state unchanged. -/
theorem fetch_failure_preserves_files_witness :
    runMain
        { snapshot := some [snapshotHeader], events := none, marker := none, backups := [] }
        none ⟨2024, 5, 1, 12, 0, 0, 0⟩ =
      { snapshot := some [snapshotHeader], events := none, marker := none, backups := [] } :=
  (fetch_failure_preserves_files _ _).2.2 (Or.inr (by decide))

/-- Claim C3 counterexample: with an existing but unparseable marker file,
`is_first_poll` is false (the file exists), so a positive delta still
emits an event row — with a zero-width window `[now, now]` — refuting the
claimed suppression for the unparseable-marker case. -/
theorem unparseable_marker_emits_events :
    readLastPollJst (some "garbage") = none ∧
    (runMain
        { snapshot := some [snapshotHeader,
            ["2024-05-01T11:00:00+09:00", "v1", "x.zip", "10", "0"]],
          events := some [eventsHeader], marker := some "garbage", backups := [] }
        (some { tag_name := some "v1", assets := [{ name := "x.zip", download_count := 15 }] })
        ⟨2024, 5, 1, 12, 0, 0, 0⟩).events =
      some [eventsHeader,
        ["2024-05-01T12:00:00+09:00", "2024-05-01T12:00:00+09:00", "x.zip", "5"]] :=
  ⟨by decide, by decide⟩

/-- Claim C3 amended: only a missing marker file suppresses event emission
for the run; an existing but empty or unparseable marker does not suppress
(the window degenerates to `[now, now]`, see the counterexample).  Either
way only that run is affected: the run unconditionally rewrites the marker
with the current poll time. -/
theorem marker_absent_suppression (fs : FileState) (rel : Release) (nowRaw : PyDateTime) :
    (fs.marker = none → (runMain fs (some rel) nowRaw).events = some (evInit fs)) ∧
    (∀ s, fs.marker = some s →
      (runMain fs (some rel) nowRaw).events =
        some (evInit fs ++
          ((runRows fs rel nowRaw).filter (fun r => decide (0 < r.delta_since_prev))).map
            (eventRowToCsv (runPrevPoll fs nowRaw) (dropMicro nowRaw)))) ∧
    (runMain fs (some rel) nowRaw).marker = some (String.mk (isoformat (dropMicro nowRaw))) := by
  refine ⟨?_, ?_, runMain_marker fs rel nowRaw⟩
  · intro h
    rw [runMain_events, runEventCsv_of_marker_none fs rel nowRaw h, List.append_nil]
  · intro s h
    rw [runMain_events, runEventCsv_of_marker_some fs rel nowRaw s h]

/-- Witness for C3 amended: with no marker file, a positive delta produces
no event row. -/
theorem marker_absent_suppression_witness :
    (runMain
        { snapshot := some [snapshotHeader,
            ["2024-05-01T11:00:00+09:00", "v1", "x.zip", "10", "0"]],
          events := none, marker := none, backups := [] }
        (some { tag_name := some "v1", assets := [{ name := "x.zip", download_count := 15 }] })
        ⟨2024, 5, 1, 12, 0, 0, 0⟩).events =
      some (evInit
        { snapshot := some [snapshotHeader,
            ["2024-05-01T11:00:00+09:00", "v1", "x.zip", "10", "0"]],
          events := none, marker := none, backups := [] }) :=
  (marker_absent_suppression _ _ _).1 rfl

/-- Claim C4: on the very first poll ever (no marker file and no snapshot
log), every appended snapshot row has delta 0 — assets with positive
cumulative counts included, since `previous` defaults to the current
count — and no event row is emitted. -/
theorem first_poll_suppression (fs : FileState) (rel : Release) (nowRaw : PyDateTime)
    (hsnap : fs.snapshot = none) (hmark : fs.marker = none) :
    (∀ r ∈ runRows fs rel nowRaw, r.delta_since_prev = 0) ∧
    (runMain fs (some rel) nowRaw).events = some (evInit fs) ∧
    (runMain fs (some rel) nowRaw).snapshot =
      some (snapshotHeader :: (runRows fs rel nowRaw).map snapshotRowToCsv) := by
  have hb : backupIfHeaderMismatch fs = fs := by
    unfold backupIfHeaderMismatch
    rw [hsnap]
    rfl
  refine ⟨?_, ?_, ?_⟩
  · intro r hr
    rw [runRows, List.mem_map] at hr
    obtain ⟨a, _, rfl⟩ := hr
    simp [runLastCounts, hb, hsnap, loadLastCounts, lookupLast]
  · rw [runMain_events, runEventCsv_of_marker_none fs rel nowRaw hmark, List.append_nil]
  · rw [runMain_snapshot, hb, hsnap]
    rfl

/-- Witness for C4: a first-ever poll that fetches an asset with cumulative
count 42 appends a delta-0 row and no event rows. -/
theorem first_poll_suppression_witness :
    (∀ r ∈ runRows { snapshot := none, events := none, marker := none, backups := [] }
        { tag_name := some "v1", assets := [{ name := "x.zip", download_count := 42 }] }
        ⟨2024, 5, 1, 12, 0, 0, 0⟩, r.delta_since_prev = 0) ∧
    (runMain { snapshot := none, events := none, marker := none, backups := [] }
        (some { tag_name := some "v1", assets := [{ name := "x.zip", download_count := 42 }] })
        ⟨2024, 5, 1, 12, 0, 0, 0⟩).events =
      some (evInit { snapshot := none, events := none, marker := none, backups := [] }) :=
  ⟨(first_poll_suppression _ _ _ rfl rfl).1,
   (first_poll_suppression _ _ _ rfl rfl).2.1⟩

/-- Claim C5: an existing snapshot log whose first row differs from the
expected header is renamed aside with its rows preserved among the backups,
and the snapshot file is recreated with the expected header as its first
row, followed only by this run's snapshot rows. -/
theorem header_mismatch_recovery (fs : FileState) (rel : Release) (nowRaw : PyDateTime)
    (content : List (List String)) (hsnap : fs.snapshot = some content)
    (hdr : List String) (hhdr : readCsvHeader fs.snapshot = some hdr)
    (hne : hdr ≠ snapshotHeader) :
    (runMain fs (some rel) nowRaw).backups = fs.backups ++ [content] ∧
    (runMain fs (some rel) nowRaw).snapshot =
      some (snapshotHeader :: (runRows fs rel nowRaw).map snapshotRowToCsv) := by
  have hb : backupIfHeaderMismatch fs =
      { fs with snapshot := none, backups := fs.backups ++ [content] } := by
    unfold backupIfHeaderMismatch
    rw [hhdr]
    simp [hne, hsnap]
  constructor
  · rw [runMain_backups, hb]
  · rw [runMain_snapshot, hb]
    rfl

/-- Witness for C5 at the spec's own example header `a,b,c`. -/
theorem header_mismatch_recovery_witness :
    (runMain
        { snapshot := some [["a", "b", "c"], ["1", "2", "3"]], events := none,
          marker := none, backups := [] }
        (some { tag_name := some "v1", assets := [] }) ⟨2024, 5, 1, 12, 0, 0, 0⟩).backups =
      [] ++ [[["a", "b", "c"], ["1", "2", "3"]]] ∧
    (runMain
        { snapshot := some [["a", "b", "c"], ["1", "2", "3"]], events := none,
          marker := none, backups := [] }
        (some { tag_name := some "v1", assets := [] }) ⟨2024, 5, 1, 12, 0, 0, 0⟩).snapshot =
      some (snapshotHeader ::
        (runRows
          { snapshot := some [["a", "b", "c"], ["1", "2", "3"]], events := none,
            marker := none, backups := [] }
          { tag_name := some "v1", assets := [] } ⟨2024, 5, 1, 12, 0, 0, 0⟩).map
            snapshotRowToCsv) :=
  header_mismatch_recovery _ _ _ [["a", "b", "c"], ["1", "2", "3"]] rfl
    ["a", "b", "c"] (by decide) (by decide)

/-- Claim C7: a run that reaches the write phase appends exactly one
snapshot row per fetched asset (zero and negative deltas included), every
appended event record stems from a strictly-positive-delta row, and an
asset whose new count equals its previous count yields a delta-0 snapshot
row that is not among the event-emitting rows. -/
theorem snapshot_census_event_sparsity (fs : FileState) (rel : Release) (nowRaw : PyDateTime) :
    (runRows fs rel nowRaw).length = rel.assets.length ∧
    (runMain fs (some rel) nowRaw).snapshot =
      some (((backupIfHeaderMismatch fs).snapshot.getD []) ++
        (if (backupIfHeaderMismatch fs).snapshot.isNone then [snapshotHeader] else []) ++
        (runRows fs rel nowRaw).map snapshotRowToCsv) ∧
    (∀ e ∈ runEventCsv fs rel nowRaw, ∃ r, r ∈ runRows fs rel nowRaw ∧
      0 < r.delta_since_prev ∧
      e = eventRowToCsv (runPrevPoll fs nowRaw) (dropMicro nowRaw) r) ∧
    (∀ (i : Nat) (a : Asset) (P : Int), rel.assets[i]? = some a →
      lookupLast (runLastCounts fs) a.name = some P → a.download_count = P →
      (runRows fs rel nowRaw)[i]? = some
        { timestamp_jst := String.mk (isoformat (dropMicro nowRaw)),
          release_tag := effectiveTag rel, asset_name := a.name,
          download_count_total := a.download_count, delta_since_prev := 0 } ∧
      ∀ r, (runRows fs rel nowRaw)[i]? = some r →
        r ∉ (runRows fs rel nowRaw).filter (fun r2 => decide (0 < r2.delta_since_prev))) := by
  refine ⟨by simp [runRows], runMain_snapshot fs rel nowRaw, ?_, ?_⟩
  · intro e he
    unfold runEventCsv at he
    by_cases hf : runFirstPoll fs nowRaw
    · rw [if_pos hf] at he
      exact absurd he (List.not_mem_nil e)
    · rw [if_neg hf, List.mem_map] at he
      obtain ⟨r, hrf, rfl⟩ := he
      rw [List.mem_filter] at hrf
      exact ⟨r, hrf.1, by simpa using hrf.2, rfl⟩
  · intro i a P hi hP hNP
    have hrow : (runRows fs rel nowRaw)[i]? = some
        { timestamp_jst := String.mk (isoformat (dropMicro nowRaw)),
          release_tag := effectiveTag rel, asset_name := a.name,
          download_count_total := a.download_count, delta_since_prev := 0 } := by
      simp [runRows, List.getElem?_map, hi, hP, hNP]
    refine ⟨hrow, ?_⟩
    intro r hr hmem
    rw [hrow] at hr
    obtain rfl : _ = r := Option.some.inj hr
    have := List.of_mem_filter hmem
    simp at this

/-- Witness for C7: one asset whose new count equals its previous count 10
gives a delta-0 snapshot row that emits no event. -/
theorem snapshot_census_event_sparsity_witness :
    (runRows
        { snapshot := some [snapshotHeader,
            ["2024-05-01T11:00:00+09:00", "v1", "x.zip", "10", "0"]],
          events := some [eventsHeader],
          marker := some "2024-05-01T11:00:00+09:00", backups := [] }
        { tag_name := some "v1", assets := [{ name := "x.zip", download_count := 10 }] }
        ⟨2024, 5, 1, 12, 0, 0, 0⟩)[0]? = some
      { timestamp_jst := "2024-05-01T12:00:00+09:00", release_tag := "v1",
        asset_name := "x.zip", download_count_total := 10, delta_since_prev := 0 } :=
  ((snapshot_census_event_sparsity _ _ _).2.2.2 0 ⟨"x.zip", 10⟩ 10
    (by decide) (by decide) (by decide)).1

/-- Claim C8: writing a timestamp to the marker file and reading it back
returns the timestamp with sub-second precision dropped; for the
whole-second poll timestamp a run persists, the next read returns exactly
that timestamp. -/
theorem marker_round_trip (fs : FileState) (rel : Release) (d : PyDateTime)
    (hy : d.year < 10000) (hmo : d.month < 100) (hd : d.day < 100)
    (hh : d.hour < 100) (hmi : d.minute < 100) (hs : d.second < 100) :
    readLastPollJst (writeLastPollJst fs d).marker = some (dropMicro d) ∧
    (d.micro = 0 → readLastPollJst (writeLastPollJst fs d).marker = some d) ∧
    readLastPollJst (runMain fs (some rel) d).marker = some (dropMicro d) := by
  have h0 : (dropMicro d).micro = 0 := rfl
  have key : readLastPollJst (some (String.mk (isoformat (dropMicro d)))) =
      some (dropMicro d) := by
    have hne : isoformat (dropMicro d) ≠ [] := by
      rw [isoformat_shape _ h0]
      exact List.cons_ne_nil _ _
    show (if pyStrip (isoformat (dropMicro d)) = [] then none
          else parseIso (pyStrip (isoformat (dropMicro d)))) = some (dropMicro d)
    rw [pyStrip_isoformat _ h0 hy, if_neg hne]
    exact parseIso_isoformat _ h0 hy hmo hd hh hmi hs
  have hw : (writeLastPollJst fs d).marker = some (String.mk (isoformat (dropMicro d))) := rfl
  refine ⟨by rw [hw]; exact key, ?_, ?_⟩
  · intro hmic
    have hdd : dropMicro d = d := by
      obtain ⟨y, mo, dd, hh2, mi, ss, mic⟩ := d
      simp only at hmic
      rw [dropMicro, hmic]
    rw [hw, key, hdd]
  · rw [runMain_marker]
    exact key

/-- Witness for C8 at a timestamp with nonzero microseconds: the read-back
drops the sub-second part; at the whole-second version it is the identity. -/
theorem marker_round_trip_witness :
    readLastPollJst (writeLastPollJst
        { snapshot := none, events := none, marker := none, backups := [] }
        ⟨2024, 5, 1, 12, 34, 56, 789⟩).marker =
      some ⟨2024, 5, 1, 12, 34, 56, 0⟩ ∧
    readLastPollJst (writeLastPollJst
        { snapshot := none, events := none, marker := none, backups := [] }
        ⟨2024, 5, 1, 12, 34, 56, 0⟩).marker =
      some ⟨2024, 5, 1, 12, 34, 56, 0⟩ :=
  ⟨(marker_round_trip _ ⟨none, []⟩ _ (by decide) (by decide) (by decide)
      (by decide) (by decide) (by decide)).1,
   (marker_round_trip _ ⟨none, []⟩ _ (by decide) (by decide) (by decide)
      (by decide) (by decide) (by decide)).2.1 rfl⟩

theorem digitChar10_ne_t (k : Nat) (hk : k < 10) : digitChar10 k ≠ 't' := by
  interval_cases k <;> decide

theorem iso_string_ne_timestamp_field (d : PyDateTime) (h0 : d.micro = 0)
    (hy : d.year < 10000) : String.mk (isoformat d) ≠ "timestamp_jst" := by
  rw [isoformat_shape d h0]
  intro h
  have h2 := congrArg String.data h
  rw [show ("timestamp_jst").data =
    't' :: ['i', 'm', 'e', 's', 't', 'a', 'm', 'p', '_', 'j', 's', 't'] from rfl] at h2
  have h3 : digitChar10 (d.year / 1000) = 't' := by
    injection h2 with h3 _
  exact digitChar10_ne_t _ (by omega) h3

/-- Claim C9: a snapshot log that exists but is completely empty is neither
backed up nor given a header: this run's rows are appended directly, and the
resulting file's first row is a data row, not the expected header. -/
theorem empty_snapshot_no_header (fs : FileState) (rel : Release) (nowRaw : PyDateTime)
    (hsnap : fs.snapshot = some []) (hy : nowRaw.year < 10000) :
    (runMain fs (some rel) nowRaw).backups = fs.backups ∧
    (runMain fs (some rel) nowRaw).snapshot =
      some ((runRows fs rel nowRaw).map snapshotRowToCsv) ∧
    (rel.assets ≠ [] →
      readCsvHeader (runMain fs (some rel) nowRaw).snapshot ≠ some snapshotHeader) := by
  have hb : backupIfHeaderMismatch fs = fs := by
    unfold backupIfHeaderMismatch
    rw [hsnap]
    rfl
  have hcontent : (runMain fs (some rel) nowRaw).snapshot =
      some ((runRows fs rel nowRaw).map snapshotRowToCsv) := by
    rw [runMain_snapshot, hb, hsnap]
    rfl
  refine ⟨by rw [runMain_backups, hb], hcontent, ?_⟩
  intro hassets
  obtain ⟨a, rest, hcons⟩ : ∃ a rest, rel.assets = a :: rest := by
    cases h : rel.assets with
    | nil => exact absurd h hassets
    | cons a rest => exact ⟨a, rest, rfl⟩
  rw [hcontent]
  unfold runRows
  rw [hcons]
  intro hread
  have hfirst := Option.some.inj hread
  have hts := congrArg (fun l => l[0]?) hfirst
  simp [snapshotRowToCsv, snapshotHeader] at hts
  exact iso_string_ne_timestamp_field (dropMicro nowRaw) rfl hy hts

/-- Witness for C9: an empty snapshot log plus one fetched asset yields a
file whose only row is that asset's data row, with no backup taken. -/
theorem empty_snapshot_no_header_witness :
    (runMain
        { snapshot := some [], events := none, marker := none, backups := [] }
        (some { tag_name := some "v1", assets := [{ name := "x.zip", download_count := 3 }] })
        ⟨2024, 5, 1, 12, 0, 0, 0⟩).backups = [] ∧
    readCsvHeader (runMain
        { snapshot := some [], events := none, marker := none, backups := [] }
        (some { tag_name := some "v1", assets := [{ name := "x.zip", download_count := 3 }] })
        ⟨2024, 5, 1, 12, 0, 0, 0⟩).snapshot ≠ some snapshotHeader :=
  ⟨(empty_snapshot_no_header _ _ _ rfl (by decide)).1,
   (empty_snapshot_no_header _ _ _ rfl (by decide)).2.2 (by decide)⟩

/-- Claim C10: the single whole-second poll timestamp of a run is the
timestamp of every appended snapshot row, the window end of every appended
event record, and the value persisted to the marker file. -/
theorem single_poll_timestamp (fs : FileState) (rel : Release) (nowRaw : PyDateTime) :
    (∀ r ∈ runRows fs rel nowRaw,
      r.timestamp_jst = String.mk (isoformat (dropMicro nowRaw))) ∧
    (∀ e ∈ runEventCsv fs rel nowRaw,
      e[1]? = some (String.mk (isoformat (dropMicro nowRaw)))) ∧
    (runMain fs (some rel) nowRaw).marker =
      some (String.mk (isoformat (dropMicro nowRaw))) := by
  refine ⟨?_, ?_, runMain_marker fs rel nowRaw⟩
  · intro r hr
    rw [runRows, List.mem_map] at hr
    obtain ⟨a, _, rfl⟩ := hr
    rfl
  · intro e he
    unfold runEventCsv at he
    by_cases hf : runFirstPoll fs nowRaw
    · rw [if_pos hf] at he
      exact absurd he (List.not_mem_nil e)
    · rw [if_neg hf, List.mem_map] at he
      obtain ⟨r, _, rfl⟩ := he
      rfl

/-- Witness for C10: on a concrete run the appended row's timestamp, the
event record's window end, and the marker all equal the poll timestamp. -/
theorem single_poll_timestamp_witness :
    (runMain
        { snapshot := some [snapshotHeader,
            ["2024-05-01T11:00:00+09:00", "v1", "x.zip", "10", "0"]],
          events := some [eventsHeader],
          marker := some "2024-05-01T11:00:00+09:00", backups := [] }
        (some { tag_name := some "v1", assets := [{ name := "x.zip", download_count := 15 }] })
        ⟨2024, 5, 1, 12, 0, 0, 59⟩).marker = some "2024-05-01T12:00:00+09:00" ∧
    (["2024-05-01T11:00:00+09:00", "2024-05-01T12:00:00+09:00", "x.zip", "5"] :
        List String)[1]? = some "2024-05-01T12:00:00+09:00" :=
  ⟨(single_poll_timestamp
      { snapshot := some [snapshotHeader,
          ["2024-05-01T11:00:00+09:00", "v1", "x.zip", "10", "0"]],
        events := some [eventsHeader],
        marker := some "2024-05-01T11:00:00+09:00", backups := [] }
      { tag_name := some "v1", assets := [{ name := "x.zip", download_count := 15 }] }
      ⟨2024, 5, 1, 12, 0, 0, 59⟩).2.2,
   (single_poll_timestamp
      { snapshot := some [snapshotHeader,
          ["2024-05-01T11:00:00+09:00", "v1", "x.zip", "10", "0"]],
        events := some [eventsHeader],
        marker := some "2024-05-01T11:00:00+09:00", backups := [] }
      { tag_name := some "v1", assets := [{ name := "x.zip", download_count := 15 }] }
      ⟨2024, 5, 1, 12, 0, 0, 59⟩).2.1
    ["2024-05-01T11:00:00+09:00", "2024-05-01T12:00:00+09:00", "x.zip", "5"] (by decide)⟩

end ReleaseLogger
